import Mathlib

/-!
# Verification of the ServiceNOW-Client `QueryBuilder`

This file gives a shallow embedding of `src/QueryBuilder.js` (a fluent builder
for ServiceNOW encoded-query strings) and proves/refutes the specification
claims about it.

Modelling conventions:
* JavaScript runtime values that can flow into the builder's methods are
  modelled by the inductive type `JSVal`; `jsTypeof` is the `typeof` operator
  and `jsToString` is the string coercion performed by `+`-concatenation and
  template literals (arrays render as their comma-joined elements, with
  `null`/`undefined` elements rendered empty, exactly as in JS).
* Machine state is the two fields of the class: the token list `query` and the
  string `currentField`.
* A method that may `throw` is embedded as a function returning
  `QueryBuilder × Option QueryError`: the first component is the state of
  `this` when the call returns or throws (the sources throw strictly before
  any mutation, and the embedding mirrors the statement order of each body),
  the second is `some e` when the source throws exception `e`.
* `build()` contains no assignment in the source, so it is embedded as a pure
  read-only function `QueryBuilder → Except QueryError String`.
* moment dates: a local-mode moment is modelled as an instant (epoch seconds)
  together with the UTC offset (in minutes) that its `format` uses; `format`
  renders the instant shifted by that offset.  A JS `Date` is just an instant.
  moment's `hh` pattern token is the 12-hour clock hour `01`–`12`.
-/

/-- JavaScript runtime values reaching the builder's public methods. -/
inductive JSVal where
  | str (s : String)
  | num (n : Int)
  | boolV (b : Bool)
  | arr (elems : List JSVal)
  /-- a JS `Date` holding the given instant (seconds since the epoch) -/
  | date (epochSec : Int)
  /-- a moment object: the instant it wraps, and the UTC offset (minutes)
  its local-mode `format` renders with -/
  | momentObj (epochSec : Int) (utcOffsetMin : Int)
  /-- a plain object (not an array, Date or moment) -/
  | objPlain
  | undef
  | nullV

/-- The JS `typeof` operator on `JSVal`. -/
def jsTypeof : JSVal → String
  | .str _ => "string"
  | .num _ => "number"
  | .boolV _ => "boolean"
  | .arr _ => "object"
  | .date _ => "object"
  | .momentObj _ _ => "object"
  | .objPlain => "object"
  | .undef => "undefined"
  | .nullV => "object"

/-- `Array.isArray`. -/
def JSVal.isArray : JSVal → Bool
  | .arr _ => true
  | _ => false

/-- `x instanceof Date || x instanceof moment`. -/
def JSVal.isDateLike : JSVal → Bool
  | .date _ => true
  | .momentObj _ _ => true
  | _ => false

/-- String coercion of the non-array values (JS `String(v)`).  The renderings
of `Date`, moment and plain objects are abbreviated: no verified claim
exercises them (they never reach a string concatenation in the source's
reachable paths). -/
def jsScalarStr : JSVal → String
  | .str s => s
  | .num n => toString n
  | .boolV b => cond b "true" "false"
  | .date t => "[Date " ++ toString t ++ "]"
  | .momentObj t off => "[Moment " ++ toString t ++ " " ++ toString off ++ "]"
  | .objPlain => "[object Object]"
  | .undef => "undefined"
  | .nullV => "null"
  | .arr _ => ""

mutual

/-- `Array.prototype.join(',')`, which is also the string coercion of an
array: elements are stringified recursively, `null` and `undefined` elements
render as the empty string. -/
def jsArrJoin : List JSVal → String
  | [] => ""
  | [v] => jsArrElem v
  | v :: w :: vs => jsArrElem v ++ "," ++ jsArrJoin (w :: vs)

/-- One array element under `join`/`toString` coercion. -/
def jsArrElem : JSVal → String
  | .undef => ""
  | .nullV => ""
  | .arr xs => jsArrJoin xs
  | v => jsScalarStr v

end

/-- The JS string coercion used by `+`-concatenation and template literals. -/
def jsToString : JSVal → String
  | .arr xs => jsArrJoin xs
  | v => jsScalarStr v

/-! ## Calendar arithmetic for the datetime paths -/

/-- Calendar components of an instant. -/
structure DateParts where
  year : Int
  month : Nat
  day : Nat
  hour : Nat
  minute : Nat
  second : Nat
deriving Repr, DecidableEq

/-- Proleptic-Gregorian civil date from a day count since 1970-01-01
(the standard era-based algorithm). -/
def civilFromDays (z0 : Int) : Int × Nat × Nat :=
  let z := z0 + 719468
  let era := (if 0 ≤ z then z else z - 146096) / 146097
  let doe := (z - era * 146097).toNat
  let yoe := (doe - doe / 1460 + doe / 36524 - doe / 146096) / 365
  let doy := doe - (365 * yoe + yoe / 4 - yoe / 100)
  let mp := (5 * doy + 2) / 153
  let d := doy - (153 * mp + 2) / 5 + 1
  let m := if mp < 10 then mp + 3 else mp - 9
  ((yoe : Int) + era * 400 + (if m ≤ 2 then 1 else 0), m, d)

/-- UTC calendar components of an instant given in epoch seconds. -/
def utcParts (t : Int) : DateParts :=
  let days := t.ediv 86400
  let sod := (t.emod 86400).toNat
  let c := civilFromDays days
  { year := c.1, month := c.2.1, day := c.2.2
    hour := sod / 3600, minute := sod % 3600 / 60, second := sod % 60 }

/-- Two-digit zero padding (moment `MM`, `DD`, `hh`, `mm`, `ss`). -/
def pad2 (n : Nat) : String :=
  if n < 10 then "0" ++ toString n else toString n

/-- Four-digit zero padding (moment `YYYY`). -/
def pad4 (n : Nat) : String :=
  if n < 10 then "000" ++ toString n
  else if n < 100 then "00" ++ toString n
  else if n < 1000 then "0" ++ toString n
  else toString n

/-- moment's `hh` pattern token: the 12-hour clock hour, `01`–`12`. -/
def hour12 (h : Nat) : Nat :=
  if h % 12 = 0 then 12 else h % 12

/-- Rendering of calendar components with the source's format pattern
`'YYYY-MM-DD hh:mm:ss'` (note `hh` is moment's 12-hour hour token). -/
def fmtParts (p : DateParts) : String :=
  pad4 p.year.toNat ++ "-" ++ pad2 p.month ++ "-" ++ pad2 p.day ++ " "
    ++ pad2 (hour12 p.hour) ++ ":" ++ pad2 p.minute ++ ":" ++ pad2 p.second

/-- Embeds `_formatDateTime(momentDate)`, i.e.
`momentDate.format('YYYY-MM-DD hh:mm:ss')`: a local-mode moment renders the
calendar components of its instant shifted by its own UTC offset. -/
def _formatDateTime (t off : Int) : String :=
  fmtParts (utcParts (t + off * 60))

/-- Embeds `_getDateTimeInUTC`.
* moment branch: the source formats the moment directly
  (`this._formatDateTime(dateTime)`), performing **no** UTC conversion.
* Date branch: the source computes
  `moment(new Date(dateTime.toUTCString().substr(0, 25)))`:
  `toUTCString().substr(0,25)` prints the UTC calendar components of the
  instant without a zone suffix, and reparsing them as a local wall-clock
  time yields a moment whose local rendering is exactly those UTC
  components — modelled as a moment with offset `0` over the raw UTC parts.
* any other input would make the source throw a `TypeError` inside
  `toUTCString`; no call site reaches this branch (both callers guard with
  `instanceof` checks), so it is mapped to `""`. -/
def _getDateTimeInUTC : JSVal → String
  | .momentObj t off => _formatDateTime t off
  | .date t => _formatDateTime t 0
  | _ => ""

/-! ## The builder -/

/-- The three exception classes of the source
(`QueryMissingFieldException`, `QueryTypeException`, `QueryEmptyException`),
each carrying its message. -/
inductive QueryError where
  | missingField (msg : String)
  | typeMismatch (msg : String)
  | emptyQuery (msg : String)
deriving Repr, DecidableEq

/-- The two instance fields of the `QueryBuilder` class. -/
structure QueryBuilder where
  query : List String
  currentField : String
deriving Repr, DecidableEq

/-- `new QueryBuilder()`. -/
def QueryBuilder.init : QueryBuilder :=
  { query := [], currentField := "" }

/-- `field(fieldName)`: sets the current field; never throws. -/
def QueryBuilder.field (qb : QueryBuilder) (fieldName : String) : QueryBuilder :=
  { qb with currentField := fieldName }

/-- `orderDescending()`. -/
def QueryBuilder.orderDescending (qb : QueryBuilder) : QueryBuilder :=
  { qb with query := qb.query ++ ["ORDERBYDESC" ++ qb.currentField] }

/-- `orderAscending()`. -/
def QueryBuilder.orderAscending (qb : QueryBuilder) : QueryBuilder :=
  { qb with query := qb.query ++ ["ORDERBY" ++ qb.currentField] }

/-- `_addLogicalOperator(operator)`. -/
def QueryBuilder._addLogicalOperator (qb : QueryBuilder) (operator : String) : QueryBuilder :=
  { qb with query := qb.query ++ [operator] }

/-- `and()`. -/
def QueryBuilder.and (qb : QueryBuilder) : QueryBuilder :=
  qb._addLogicalOperator "^"

/-- `or()`. -/
def QueryBuilder.or (qb : QueryBuilder) : QueryBuilder :=
  qb._addLogicalOperator "^OR"

/-- `NQ()`. -/
def QueryBuilder.NQ (qb : QueryBuilder) : QueryBuilder :=
  qb._addLogicalOperator "^NQ"

/-- `_addCondition(operator, operand, types)`.  Mirrors the statement order of
the source: missing-field check, then the allowed-type check
(`types.includes(typeof operand)`; on failure the message lists the expected
types only, comma-joined as JS array-to-string does), then the push of
`this.currentField + operator + operand`. -/
def QueryBuilder._addCondition (qb : QueryBuilder) (operator : String)
    (operand : JSVal) (types : List String) : QueryBuilder × Option QueryError :=
  if qb.currentField = "" then
    (qb, some (.missingField "Conditions requires a field."))
  else if types.contains (jsTypeof operand) = false then
    (qb, some (.typeMismatch
      (if 1 < types.length then
        "Invalid type passed. Expected one of: " ++ String.intercalate "," types
      else
        "Invalid type passed. Expected: " ++ String.intercalate "," types)))
  else
    ({ qb with query := qb.query ++ [qb.currentField ++ operator ++ jsToString operand] }, none)

/-- `startsWith(startsWithStr)`. -/
def QueryBuilder.startsWith (qb : QueryBuilder) (startsWithStr : JSVal) :
    QueryBuilder × Option QueryError :=
  qb._addCondition "STARTSWITH" startsWithStr ["string"]

/-- `endsWith(endsWithStr)`. -/
def QueryBuilder.endsWith (qb : QueryBuilder) (endsWithStr : JSVal) :
    QueryBuilder × Option QueryError :=
  qb._addCondition "ENDSWITH" endsWithStr ["string"]

/-- `contains(containesStr)`. -/
def QueryBuilder.contains (qb : QueryBuilder) (containesStr : JSVal) :
    QueryBuilder × Option QueryError :=
  qb._addCondition "LIKE" containesStr ["string"]

/-- `doesNotContain(notContainesStr)`. -/
def QueryBuilder.doesNotContain (qb : QueryBuilder) (notContainesStr : JSVal) :
    QueryBuilder × Option QueryError :=
  qb._addCondition "NOTLIKE" notContainesStr ["string"]

/-- `isEmpty()`: operand is the literal empty string. -/
def QueryBuilder.isEmpty (qb : QueryBuilder) : QueryBuilder × Option QueryError :=
  qb._addCondition "ISEMPTY" (.str "") ["string", "number"]

/-- `isNotEmpty()`. -/
def QueryBuilder.isNotEmpty (qb : QueryBuilder) : QueryBuilder × Option QueryError :=
  qb._addCondition "ISNOTEMPTY" (.str "") ["string", "number"]

/-- `isAnything()`. -/
def QueryBuilder.isAnything (qb : QueryBuilder) : QueryBuilder × Option QueryError :=
  qb._addCondition "ANYTHING" (.str "") ["string", "number"]

/-- `isEmptyString()`. -/
def QueryBuilder.isEmptyString (qb : QueryBuilder) : QueryBuilder × Option QueryError :=
  qb._addCondition "EMPTYSTRING" (.str "") ["string"]

/-- `equals(data)`: scalar branch, array branch, else throw naming
`typeof data`. -/
def QueryBuilder.equals (qb : QueryBuilder) (data : JSVal) :
    QueryBuilder × Option QueryError :=
  if jsTypeof data = "string" ∨ jsTypeof data = "number" then
    qb._addCondition "=" data ["string", "number"]
  else if data.isArray then
    qb._addCondition "IN" data ["object"]
  else
    (qb, some (.typeMismatch ("Expected string or list type, found: " ++ jsTypeof data)))

/-- `notEquals(data)`. -/
def QueryBuilder.notEquals (qb : QueryBuilder) (data : JSVal) :
    QueryBuilder × Option QueryError :=
  if jsTypeof data = "string" ∨ jsTypeof data = "number" then
    qb._addCondition "!=" data ["string", "number"]
  else if data.isArray then
    qb._addCondition "NOT IN" data ["object"]
  else
    (qb, some (.typeMismatch ("Expected string or list type, found: " ++ jsTypeof data)))

/-- `_addComparisonCondition(valueToCompare, operator)`: date-like values are
replaced by their `_getDateTimeInUTC` rendering; non-number/string/date
operands throw naming the actual type; otherwise delegates to
`_addCondition(operator, value, ['number', 'string'])`. -/
def QueryBuilder._addComparisonCondition (qb : QueryBuilder) (valueToCompare : JSVal)
    (operator : String) : QueryBuilder × Option QueryError :=
  if valueToCompare.isDateLike then
    qb._addCondition operator (.str (_getDateTimeInUTC valueToCompare)) ["number", "string"]
  else if ¬(jsTypeof valueToCompare = "number" ∨ jsTypeof valueToCompare = "string") then
    (qb, some (.typeMismatch
      ("Expected string/Date/number type, found: " ++ jsTypeof valueToCompare)))
  else
    qb._addCondition operator valueToCompare ["number", "string"]

/-- `greaterThan(greaterThanValue)`. -/
def QueryBuilder.greaterThan (qb : QueryBuilder) (v : JSVal) :
    QueryBuilder × Option QueryError :=
  qb._addComparisonCondition v ">"

/-- `greaterThanOrIs(greaterThanOrIsValue)`. -/
def QueryBuilder.greaterThanOrIs (qb : QueryBuilder) (v : JSVal) :
    QueryBuilder × Option QueryError :=
  qb._addComparisonCondition v ">="

/-- `lessThan(lessThanValue)`. -/
def QueryBuilder.lessThan (qb : QueryBuilder) (v : JSVal) :
    QueryBuilder × Option QueryError :=
  qb._addComparisonCondition v "<"

/-- `lessThanOrIs(lessThanOrIsValue)`. -/
def QueryBuilder.lessThanOrIs (qb : QueryBuilder) (v : JSVal) :
    QueryBuilder × Option QueryError :=
  qb._addComparisonCondition v "<="

/-- `between(startValue, endValue)`.  Number pair or string pair yields the
template-literal operand `start@end`; a pair of `Date`/moment values yields
the `_getDateTimeInUTC` renderings joined by `@`; otherwise the source throws
`'Expected string/date/number type, found: ' + typeof data` — where `data` is
an **undeclared** identifier, and `typeof` of an undeclared name evaluates to
`'undefined'`, so the message always ends in `undefined`. -/
def QueryBuilder.between (qb : QueryBuilder) (startValue endValue : JSVal) :
    QueryBuilder × Option QueryError :=
  if (jsTypeof startValue = "number" ∧ jsTypeof endValue = "number")
      ∨ (jsTypeof startValue = "string" ∧ jsTypeof endValue = "string") then
    qb._addCondition "BETWEEN"
      (.str (jsToString startValue ++ "@" ++ jsToString endValue)) ["string"]
  else if startValue.isDateLike && endValue.isDateLike then
    qb._addCondition "BETWEEN"
      (.str (_getDateTimeInUTC startValue ++ "@" ++ _getDateTimeInUTC endValue)) ["string"]
  else
    (qb, some (.typeMismatch "Expected string/date/number type, found: undefined"))

/-- `isOneOf(data)`: arrays are comma-joined into a string operand under
operator `IN`; anything else throws naming the actual type. -/
def QueryBuilder.isOneOf (qb : QueryBuilder) (data : JSVal) :
    QueryBuilder × Option QueryError :=
  if data.isArray then
    qb._addCondition "IN" (.str (jsToString data)) ["string"]
  else
    (qb, some (.typeMismatch ("Expected array type, found: " ++ jsTypeof data)))

/-- `build()`: throws `QueryEmptyException` when no token was appended,
otherwise `this.query.join('')`.  The source body contains no assignment, so
the embedding is a read-only function of the state. -/
def QueryBuilder.build (qb : QueryBuilder) : Except QueryError String :=
  if qb.query.length = 0 then
    .error (.emptyQuery "Atleast one condition is required in query.")
  else
    .ok (String.join qb.query)

/-! ## Operations as data

`Op` enumerates one call to any public builder method (except `build`, whose
result is a string rather than a builder); `applyOp` runs it.  This lets the
claims about "every builder operation" / "every condition method" quantify
over a single syntactic type. -/

/-- One public builder method call. -/
inductive Op where
  | fieldOp (name : String)
  | orderAscendingOp
  | orderDescendingOp
  | startsWithOp (v : JSVal)
  | endsWithOp (v : JSVal)
  | containsOp (v : JSVal)
  | doesNotContainOp (v : JSVal)
  | isEmptyOp
  | isNotEmptyOp
  | isAnythingOp
  | isEmptyStringOp
  | equalsOp (v : JSVal)
  | notEqualsOp (v : JSVal)
  | isOneOfOp (v : JSVal)
  | greaterThanOp (v : JSVal)
  | greaterThanOrIsOp (v : JSVal)
  | lessThanOp (v : JSVal)
  | lessThanOrIsOp (v : JSVal)
  | betweenOp (a b : JSVal)
  | andOp
  | orOp
  | nqOp

/-- Run one method call on a builder state. -/
def applyOp (qb : QueryBuilder) : Op → QueryBuilder × Option QueryError
  | .fieldOp s => (qb.field s, none)
  | .orderAscendingOp => (qb.orderAscending, none)
  | .orderDescendingOp => (qb.orderDescending, none)
  | .startsWithOp v => qb.startsWith v
  | .endsWithOp v => qb.endsWith v
  | .containsOp v => qb.contains v
  | .doesNotContainOp v => qb.doesNotContain v
  | .isEmptyOp => qb.isEmpty
  | .isNotEmptyOp => qb.isNotEmpty
  | .isAnythingOp => qb.isAnything
  | .isEmptyStringOp => qb.isEmptyString
  | .equalsOp v => qb.equals v
  | .notEqualsOp v => qb.notEquals v
  | .isOneOfOp v => qb.isOneOf v
  | .greaterThanOp v => qb.greaterThan v
  | .greaterThanOrIsOp v => qb.greaterThanOrIs v
  | .lessThanOp v => qb.lessThan v
  | .lessThanOrIsOp v => qb.lessThanOrIs v
  | .betweenOp a b => qb.between a b
  | .andOp => (qb.and, none)
  | .orOp => (qb.or, none)
  | .nqOp => (qb.NQ, none)

/-- The sixteen condition methods (the ones routed through `_addCondition`). -/
def isConditionOp : Op → Bool
  | .fieldOp _ => false
  | .orderAscendingOp => false
  | .orderDescendingOp => false
  | .andOp => false
  | .orOp => false
  | .nqOp => false
  | _ => true

/-- Whether the operand(s) pass the method's **own** type dispatch, i.e. the
checks a condition method performs before delegating to `_addCondition`
(methods without such a dispatch always pass). -/
def dispatchOK : Op → Bool
  | .equalsOp v => (jsTypeof v == "string" || jsTypeof v == "number") || v.isArray
  | .notEqualsOp v => (jsTypeof v == "string" || jsTypeof v == "number") || v.isArray
  | .isOneOfOp v => v.isArray
  | .greaterThanOp v => v.isDateLike || (jsTypeof v == "number" || jsTypeof v == "string")
  | .greaterThanOrIsOp v => v.isDateLike || (jsTypeof v == "number" || jsTypeof v == "string")
  | .lessThanOp v => v.isDateLike || (jsTypeof v == "number" || jsTypeof v == "string")
  | .lessThanOrIsOp v => v.isDateLike || (jsTypeof v == "number" || jsTypeof v == "string")
  | .betweenOp a b =>
      (jsTypeof a == "number" && jsTypeof b == "number")
        || (jsTypeof a == "string" && jsTypeof b == "string")
        || (a.isDateLike && b.isDateLike)
  | _ => true

/-- Whether a method outcome is a `QueryTypeException`. -/
def isTypeMismatchO : Option QueryError → Bool
  | some (.typeMismatch _) => true
  | _ => false

/-- Whether a method outcome is a `QueryMissingFieldException`. -/
def isMissingFieldO : Option QueryError → Bool
  | some (.missingField _) => true
  | _ => false

/-! ## Substring occurrence (to state "the message names the type `t`") -/

/-- Whether the first char list is an initial segment of the second. -/
def headMatch : List Char → List Char → Bool
  | [], _ => true
  | _ :: _, [] => false
  | a :: as, b :: bs => a == b && headMatch as bs

/-- Whether `pat` occurs as a contiguous segment. -/
def subOccurs (pat : List Char) : List Char → Bool
  | [] => headMatch pat []
  | c :: rest => headMatch pat (c :: rest) || subOccurs pat rest

/-- Whether `needle` occurs as a substring of `hay`. -/
def occursIn (needle hay : String) : Bool :=
  subOccurs needle.data hay.data

/-! ## Shared lemmas about `_addCondition` and the dispatch structure -/

theorem addCondition_noField (qb : QueryBuilder) (o : String) (v : JSVal)
    (ts : List String) (h : qb.currentField = "") :
    qb._addCondition o v ts = (qb, some (.missingField "Conditions requires a field.")) := by
  simp [QueryBuilder._addCondition, h]

theorem addCondition_ok (qb : QueryBuilder) (o : String) (v : JSVal) (ts : List String)
    (h : ¬ qb.currentField = "") (ht : ts.contains (jsTypeof v) = true) :
    qb._addCondition o v ts =
      ({ qb with query := qb.query ++ [qb.currentField ++ o ++ jsToString v] }, none) := by
  simp [QueryBuilder._addCondition, h]
  simpa using ht

theorem addCondition_badType (qb : QueryBuilder) (o : String) (v : JSVal) (ts : List String)
    (h : ¬ qb.currentField = "") (ht : ts.contains (jsTypeof v) = false) :
    qb._addCondition o v ts = (qb, some (.typeMismatch
      (if 1 < ts.length then
        "Invalid type passed. Expected one of: " ++ String.intercalate "," ts
      else
        "Invalid type passed. Expected: " ++ String.intercalate "," ts))) := by
  simp [QueryBuilder._addCondition, h]
  simpa using ht

theorem addCondition_error_state (qb : QueryBuilder) (o : String) (v : JSVal)
    (ts : List String) (e : QueryError) (h : (qb._addCondition o v ts).2 = some e) :
    (qb._addCondition o v ts).1 = qb := by
  unfold QueryBuilder._addCondition at *
  split_ifs at h ⊢ <;> simp_all

theorem jsTypeof_of_isDateLike (v : JSVal) (h : v.isDateLike = true) :
    jsTypeof v = "object" := by
  cases v <;> simp_all [JSVal.isDateLike, jsTypeof]

theorem isDateLike_false_of_scalar (v : JSVal)
    (h : jsTypeof v = "number" ∨ jsTypeof v = "string") : v.isDateLike = false := by
  cases v <;> simp_all [jsTypeof, JSVal.isDateLike]

/-- With no current field, a comparison method fails with `MissingField` when
its operand passes the date/number/string dispatch, and with `TypeMismatch`
otherwise. -/
theorem cmp_noField (qb : QueryBuilder) (v : JSVal) (o : String)
    (hcf : qb.currentField = "") :
    ((v.isDateLike || (jsTypeof v == "number" || jsTypeof v == "string")) = true →
      qb._addComparisonCondition v o
        = (qb, some (.missingField "Conditions requires a field.")))
    ∧ ((v.isDateLike || (jsTypeof v == "number" || jsTypeof v == "string")) = false →
      ∃ m, qb._addComparisonCondition v o = (qb, some (.typeMismatch m))) := by
  constructor
  · intro hd
    simp only [Bool.or_eq_true, beq_iff_eq] at hd
    unfold QueryBuilder._addComparisonCondition
    rcases hd with hdate | hnum
    · simp only [hdate, if_true]
      exact addCondition_noField _ _ _ _ hcf
    · have hnd := isDateLike_false_of_scalar v hnum
      simp only [hnd, Bool.false_eq_true, if_false]
      rw [if_neg (not_not_intro hnum)]
      exact addCondition_noField _ _ _ _ hcf
  · intro hd
    unfold QueryBuilder._addComparisonCondition
    rw [Bool.or_eq_false_iff] at hd
    obtain ⟨hnd, hns⟩ := hd
    rw [Bool.or_eq_false_iff] at hns
    obtain ⟨hn, hs⟩ := hns
    simp only [hnd, Bool.false_eq_true, if_false]
    rw [if_pos]
    · exact ⟨_, rfl⟩
    · rw [beq_eq_false_iff_ne] at hn hs
      simp [hn, hs]

/-- With no current field, `equals` and `notEquals` fail with `MissingField`
for scalar and array operands, and with `TypeMismatch` otherwise. -/
theorem eqNe_noField (qb : QueryBuilder) (v : JSVal) (hcf : qb.currentField = "") :
    (((jsTypeof v == "string" || jsTypeof v == "number") || v.isArray) = true →
      qb.equals v = (qb, some (.missingField "Conditions requires a field."))
      ∧ qb.notEquals v = (qb, some (.missingField "Conditions requires a field.")))
    ∧ (((jsTypeof v == "string" || jsTypeof v == "number") || v.isArray) = false →
      (∃ m, qb.equals v = (qb, some (.typeMismatch m)))
      ∧ ∃ m, qb.notEquals v = (qb, some (.typeMismatch m))) := by
  constructor
  · intro hd
    simp only [Bool.or_eq_true, beq_iff_eq] at hd
    unfold QueryBuilder.equals QueryBuilder.notEquals
    rcases hd with hsc | harr
    · rw [if_pos hsc, if_pos hsc]
      exact ⟨addCondition_noField _ _ _ _ hcf, addCondition_noField _ _ _ _ hcf⟩
    · have hns : ¬(jsTypeof v = "string" ∨ jsTypeof v = "number") := by
        cases v <;> simp_all [jsTypeof, JSVal.isArray]
      rw [if_neg hns, if_neg hns]
      simp only [harr, if_true]
      exact ⟨addCondition_noField _ _ _ _ hcf, addCondition_noField _ _ _ _ hcf⟩
  · intro hd
    unfold QueryBuilder.equals QueryBuilder.notEquals
    rw [Bool.or_eq_false_iff] at hd
    obtain ⟨hsc, harr⟩ := hd
    rw [Bool.or_eq_false_iff] at hsc
    obtain ⟨hs, hn⟩ := hsc
    rw [beq_eq_false_iff_ne] at hs hn
    have hns : ¬(jsTypeof v = "string" ∨ jsTypeof v = "number") := by simp [hs, hn]
    rw [if_neg hns, if_neg hns]
    simp only [harr, Bool.false_eq_true, if_false]
    exact ⟨⟨_, rfl⟩, ⟨_, rfl⟩⟩

/-- With no current field, `isOneOf` fails with `MissingField` on arrays and
with `TypeMismatch` otherwise. -/
theorem isOneOf_noField (qb : QueryBuilder) (v : JSVal) (hcf : qb.currentField = "") :
    (v.isArray = true →
      qb.isOneOf v = (qb, some (.missingField "Conditions requires a field.")))
    ∧ (v.isArray = false → ∃ m, qb.isOneOf v = (qb, some (.typeMismatch m))) := by
  unfold QueryBuilder.isOneOf
  constructor
  · intro h
    simp only [h, if_true]
    exact addCondition_noField _ _ _ _ hcf
  · intro h
    simp only [h, Bool.false_eq_true, if_false]
    exact ⟨_, rfl⟩

/-- With no current field, `between` fails with `MissingField` on the three
supported pairs of operand types and with `TypeMismatch` otherwise. -/
theorem between_noField (qb : QueryBuilder) (a b : JSVal) (hcf : qb.currentField = "") :
    (((jsTypeof a == "number" && jsTypeof b == "number")
        || (jsTypeof a == "string" && jsTypeof b == "string")
        || (a.isDateLike && b.isDateLike)) = true →
      qb.between a b = (qb, some (.missingField "Conditions requires a field.")))
    ∧ (((jsTypeof a == "number" && jsTypeof b == "number")
        || (jsTypeof a == "string" && jsTypeof b == "string")
        || (a.isDateLike && b.isDateLike)) = false →
      qb.between a b
        = (qb, some (.typeMismatch "Expected string/date/number type, found: undefined"))) := by
  constructor
  · intro hd
    simp only [Bool.or_eq_true, Bool.and_eq_true, beq_iff_eq] at hd
    unfold QueryBuilder.between
    rcases hd with (hnum | hstr) | hdate
    · rw [if_pos (Or.inl hnum)]
      exact addCondition_noField _ _ _ _ hcf
    · rw [if_pos (Or.inr hstr)]
      exact addCondition_noField _ _ _ _ hcf
    · have ha := jsTypeof_of_isDateLike a hdate.1
      have hb := jsTypeof_of_isDateLike b hdate.2
      rw [if_neg (by simp [ha, hb])]
      rw [if_pos (by simp [hdate.1, hdate.2])]
      exact addCondition_noField _ _ _ _ hcf
  · intro hd
    unfold QueryBuilder.between
    rw [if_neg (fun h => by rcases h with h | h <;> simp [h.1, h.2] at hd)]
    rw [if_neg (fun h => by simp [h] at hd)]

/-- On a builder whose current field is the empty string, every condition
method fails: with `MissingField` when its operands pass the method's own
type dispatch, and with `TypeMismatch` otherwise. -/
theorem condNoField (qb : QueryBuilder) (op : Op) (hcf : qb.currentField = "")
    (hc : isConditionOp op = true) :
    (dispatchOK op = true →
      applyOp qb op = (qb, some (.missingField "Conditions requires a field.")))
    ∧ (dispatchOK op = false →
      ∃ m, applyOp qb op = (qb, some (.typeMismatch m))) := by
  cases op with
  | fieldOp s => simp [isConditionOp] at hc
  | orderAscendingOp => simp [isConditionOp] at hc
  | orderDescendingOp => simp [isConditionOp] at hc
  | andOp => simp [isConditionOp] at hc
  | orOp => simp [isConditionOp] at hc
  | nqOp => simp [isConditionOp] at hc
  | startsWithOp v =>
      exact ⟨fun _ => addCondition_noField _ _ _ _ hcf, fun h => by simp [dispatchOK] at h⟩
  | endsWithOp v =>
      exact ⟨fun _ => addCondition_noField _ _ _ _ hcf, fun h => by simp [dispatchOK] at h⟩
  | containsOp v =>
      exact ⟨fun _ => addCondition_noField _ _ _ _ hcf, fun h => by simp [dispatchOK] at h⟩
  | doesNotContainOp v =>
      exact ⟨fun _ => addCondition_noField _ _ _ _ hcf, fun h => by simp [dispatchOK] at h⟩
  | isEmptyOp =>
      exact ⟨fun _ => addCondition_noField _ _ _ _ hcf, fun h => by simp [dispatchOK] at h⟩
  | isNotEmptyOp =>
      exact ⟨fun _ => addCondition_noField _ _ _ _ hcf, fun h => by simp [dispatchOK] at h⟩
  | isAnythingOp =>
      exact ⟨fun _ => addCondition_noField _ _ _ _ hcf, fun h => by simp [dispatchOK] at h⟩
  | isEmptyStringOp =>
      exact ⟨fun _ => addCondition_noField _ _ _ _ hcf, fun h => by simp [dispatchOK] at h⟩
  | equalsOp v =>
      exact ⟨fun h => ((eqNe_noField qb v hcf).1 h).1,
             fun h => ⟨((eqNe_noField qb v hcf).2 h).1.choose,
                       ((eqNe_noField qb v hcf).2 h).1.choose_spec⟩⟩
  | notEqualsOp v =>
      exact ⟨fun h => ((eqNe_noField qb v hcf).1 h).2,
             fun h => ⟨((eqNe_noField qb v hcf).2 h).2.choose,
                       ((eqNe_noField qb v hcf).2 h).2.choose_spec⟩⟩
  | isOneOfOp v =>
      exact ⟨fun h => (isOneOf_noField qb v hcf).1 h, fun h => (isOneOf_noField qb v hcf).2 h⟩
  | greaterThanOp v =>
      exact ⟨fun h => (cmp_noField qb v ">" hcf).1 h, fun h => (cmp_noField qb v ">" hcf).2 h⟩
  | greaterThanOrIsOp v =>
      exact ⟨fun h => (cmp_noField qb v ">=" hcf).1 h, fun h => (cmp_noField qb v ">=" hcf).2 h⟩
  | lessThanOp v =>
      exact ⟨fun h => (cmp_noField qb v "<" hcf).1 h, fun h => (cmp_noField qb v "<" hcf).2 h⟩
  | lessThanOrIsOp v =>
      exact ⟨fun h => (cmp_noField qb v "<=" hcf).1 h, fun h => (cmp_noField qb v "<=" hcf).2 h⟩
  | betweenOp a b =>
      exact ⟨fun h => (between_noField qb a b hcf).1 h,
             fun h => ⟨_, (between_noField qb a b hcf).2 h⟩⟩


theorem cmp_error_state (qb : QueryBuilder) (v : JSVal) (o : String) (e : QueryError)
    (h : (qb._addComparisonCondition v o).2 = some e) :
    (qb._addComparisonCondition v o).1 = qb := by
  unfold QueryBuilder._addComparisonCondition at h ⊢
  split_ifs at h ⊢ <;>
    first
      | rfl
      | exact addCondition_error_state _ _ _ _ _ h

theorem between_error_state (qb : QueryBuilder) (a b : JSVal) (e : QueryError)
    (h : (qb.between a b).2 = some e) : (qb.between a b).1 = qb := by
  unfold QueryBuilder.between at h ⊢
  split_ifs at h ⊢ <;>
    first
      | rfl
      | exact addCondition_error_state _ _ _ _ _ h

/-- Whenever a method call throws, the returned state is the pre-call state:
each source body performs its `throw` statements strictly before its single
`push`. -/
theorem applyOp_error_state (qb : QueryBuilder) (op : Op) (e : QueryError)
    (h : (applyOp qb op).2 = some e) : (applyOp qb op).1 = qb := by
  cases op with
  | fieldOp s => simp [applyOp] at h
  | orderAscendingOp => simp [applyOp] at h
  | orderDescendingOp => simp [applyOp] at h
  | andOp => simp [applyOp] at h
  | orOp => simp [applyOp] at h
  | nqOp => simp [applyOp] at h
  | startsWithOp v => exact addCondition_error_state _ _ _ _ _ h
  | endsWithOp v => exact addCondition_error_state _ _ _ _ _ h
  | containsOp v => exact addCondition_error_state _ _ _ _ _ h
  | doesNotContainOp v => exact addCondition_error_state _ _ _ _ _ h
  | isEmptyOp => exact addCondition_error_state _ _ _ _ _ h
  | isNotEmptyOp => exact addCondition_error_state _ _ _ _ _ h
  | isAnythingOp => exact addCondition_error_state _ _ _ _ _ h
  | isEmptyStringOp => exact addCondition_error_state _ _ _ _ _ h
  | equalsOp v =>
      simp only [applyOp, QueryBuilder.equals] at h ⊢
      split_ifs at h ⊢ <;>
        first
          | rfl
          | exact addCondition_error_state _ _ _ _ _ h
  | notEqualsOp v =>
      simp only [applyOp, QueryBuilder.notEquals] at h ⊢
      split_ifs at h ⊢ <;>
        first
          | rfl
          | exact addCondition_error_state _ _ _ _ _ h
  | isOneOfOp v =>
      simp only [applyOp, QueryBuilder.isOneOf] at h ⊢
      split_ifs at h ⊢ <;>
        first
          | rfl
          | exact addCondition_error_state _ _ _ _ _ h
  | greaterThanOp v => exact cmp_error_state _ _ _ _ h
  | greaterThanOrIsOp v => exact cmp_error_state _ _ _ _ h
  | lessThanOp v => exact cmp_error_state _ _ _ _ h
  | lessThanOrIsOp v => exact cmp_error_state _ _ _ _ h
  | betweenOp a b => exact between_error_state _ _ _ _ h

theorem addCondition_growth (qb : QueryBuilder) (o : String) (v : JSVal)
    (ts : List String) :
    ∃ ext, (qb._addCondition o v ts).1.query = qb.query ++ ext := by
  unfold QueryBuilder._addCondition
  split_ifs <;>
    first
      | exact ⟨_, rfl⟩
      | exact ⟨[], (List.append_nil _).symm⟩

/-- Every operation only ever appends to the token list. -/
theorem applyOp_growth (qb : QueryBuilder) (op : Op) :
    ∃ ext, (applyOp qb op).1.query = qb.query ++ ext := by
  cases op with
  | fieldOp s => exact ⟨[], (List.append_nil _).symm⟩
  | orderAscendingOp => exact ⟨_, rfl⟩
  | orderDescendingOp => exact ⟨_, rfl⟩
  | andOp => exact ⟨_, rfl⟩
  | orOp => exact ⟨_, rfl⟩
  | nqOp => exact ⟨_, rfl⟩
  | startsWithOp v => exact addCondition_growth _ _ _ _
  | endsWithOp v => exact addCondition_growth _ _ _ _
  | containsOp v => exact addCondition_growth _ _ _ _
  | doesNotContainOp v => exact addCondition_growth _ _ _ _
  | isEmptyOp => exact addCondition_growth _ _ _ _
  | isNotEmptyOp => exact addCondition_growth _ _ _ _
  | isAnythingOp => exact addCondition_growth _ _ _ _
  | isEmptyStringOp => exact addCondition_growth _ _ _ _
  | equalsOp v =>
      simp only [applyOp, QueryBuilder.equals]
      split_ifs <;>
        first
          | exact addCondition_growth _ _ _ _
          | exact ⟨[], (List.append_nil _).symm⟩
  | notEqualsOp v =>
      simp only [applyOp, QueryBuilder.notEquals]
      split_ifs <;>
        first
          | exact addCondition_growth _ _ _ _
          | exact ⟨[], (List.append_nil _).symm⟩
  | isOneOfOp v =>
      simp only [applyOp, QueryBuilder.isOneOf]
      split_ifs <;>
        first
          | exact addCondition_growth _ _ _ _
          | exact ⟨[], (List.append_nil _).symm⟩
  | greaterThanOp v =>
      simp only [applyOp, QueryBuilder.greaterThan, QueryBuilder._addComparisonCondition]
      split_ifs <;>
        first
          | exact addCondition_growth _ _ _ _
          | exact ⟨[], (List.append_nil _).symm⟩
  | greaterThanOrIsOp v =>
      simp only [applyOp, QueryBuilder.greaterThanOrIs, QueryBuilder._addComparisonCondition]
      split_ifs <;>
        first
          | exact addCondition_growth _ _ _ _
          | exact ⟨[], (List.append_nil _).symm⟩
  | lessThanOp v =>
      simp only [applyOp, QueryBuilder.lessThan, QueryBuilder._addComparisonCondition]
      split_ifs <;>
        first
          | exact addCondition_growth _ _ _ _
          | exact ⟨[], (List.append_nil _).symm⟩
  | lessThanOrIsOp v =>
      simp only [applyOp, QueryBuilder.lessThanOrIs, QueryBuilder._addComparisonCondition]
      split_ifs <;>
        first
          | exact addCondition_growth _ _ _ _
          | exact ⟨[], (List.append_nil _).symm⟩
  | betweenOp a b =>
      simp only [applyOp, QueryBuilder.between]
      split_ifs <;>
        first
          | exact addCondition_growth _ _ _ _
          | exact ⟨[], (List.append_nil _).symm⟩

/-- The unique `QueryTypeException` message each method can raise (`""` for
calls that can never raise one).  `equals`/`notEquals`/`isOneOf` and the
comparison family name the operand's actual `typeof`; the shared
`_addCondition` check lists only the expected types; `between` always reports
`undefined` (its source applies `typeof` to an undeclared identifier). -/
def typeFailMsg : Op → String
  | .startsWithOp _ => "Invalid type passed. Expected: string"
  | .endsWithOp _ => "Invalid type passed. Expected: string"
  | .containsOp _ => "Invalid type passed. Expected: string"
  | .doesNotContainOp _ => "Invalid type passed. Expected: string"
  | .isEmptyStringOp => "Invalid type passed. Expected: string"
  | .isEmptyOp => "Invalid type passed. Expected one of: string,number"
  | .isNotEmptyOp => "Invalid type passed. Expected one of: string,number"
  | .isAnythingOp => "Invalid type passed. Expected one of: string,number"
  | .equalsOp v => "Expected string or list type, found: " ++ jsTypeof v
  | .notEqualsOp v => "Expected string or list type, found: " ++ jsTypeof v
  | .isOneOfOp v => "Expected array type, found: " ++ jsTypeof v
  | .greaterThanOp v => "Expected string/Date/number type, found: " ++ jsTypeof v
  | .greaterThanOrIsOp v => "Expected string/Date/number type, found: " ++ jsTypeof v
  | .lessThanOp v => "Expected string/Date/number type, found: " ++ jsTypeof v
  | .lessThanOrIsOp v => "Expected string/Date/number type, found: " ++ jsTypeof v
  | .betweenOp _ _ => "Expected string/date/number type, found: undefined"
  | _ => ""

theorem addCondition_msg (qb : QueryBuilder) (o : String) (v : JSVal)
    (ts : List String) (m : String)
    (h : (qb._addCondition o v ts).2 = some (.typeMismatch m)) :
    m = (if 1 < ts.length then
          "Invalid type passed. Expected one of: " ++ String.intercalate "," ts
        else
          "Invalid type passed. Expected: " ++ String.intercalate "," ts) := by
  unfold QueryBuilder._addCondition at h
  split_ifs at h with hf ht hl
  · simp at h
  · rw [if_pos hl]
    simp only [Prod.snd] at h
    simp at h
    exact h.symm
  · rw [if_neg hl]
    simp only [Prod.snd] at h
    simp at h
    exact h.symm

theorem cmp_msg (qb : QueryBuilder) (v : JSVal) (o : String) (m : String)
    (h : (qb._addComparisonCondition v o).2 = some (.typeMismatch m)) :
    m = "Expected string/Date/number type, found: " ++ jsTypeof v := by
  unfold QueryBuilder._addComparisonCondition at h
  by_cases h1 : v.isDateLike = true
  · rw [if_pos h1] at h
    unfold QueryBuilder._addCondition at h
    split_ifs at h <;> simp_all [jsTypeof]
  · rw [if_neg h1] at h
    by_cases h2 : jsTypeof v = "number" ∨ jsTypeof v = "string"
    · rw [if_neg (not_not_intro h2)] at h
      rcases h2 with hs | hs <;>
        · unfold QueryBuilder._addCondition at h
          rw [hs] at h
          split_ifs at h <;> simp_all
    · rw [if_pos h2] at h
      simp at h
      exact h.symm

theorem equals_msg (qb : QueryBuilder) (v : JSVal) (m : String)
    (h : (qb.equals v).2 = some (.typeMismatch m)) :
    m = "Expected string or list type, found: " ++ jsTypeof v := by
  unfold QueryBuilder.equals at h
  by_cases h1 : jsTypeof v = "string" ∨ jsTypeof v = "number"
  · rw [if_pos h1] at h
    rcases h1 with hs | hs <;>
      · unfold QueryBuilder._addCondition at h
        rw [hs] at h
        split_ifs at h <;> simp_all
  · rw [if_neg h1] at h
    by_cases h2 : v.isArray = true
    · rw [if_pos h2] at h
      have hobj : jsTypeof v = "object" := by
        cases v <;> simp_all [JSVal.isArray, jsTypeof]
      unfold QueryBuilder._addCondition at h
      rw [hobj] at h
      split_ifs at h <;> simp_all
    · rw [if_neg h2] at h
      simp at h
      exact h.symm

theorem notEquals_msg (qb : QueryBuilder) (v : JSVal) (m : String)
    (h : (qb.notEquals v).2 = some (.typeMismatch m)) :
    m = "Expected string or list type, found: " ++ jsTypeof v := by
  unfold QueryBuilder.notEquals at h
  by_cases h1 : jsTypeof v = "string" ∨ jsTypeof v = "number"
  · rw [if_pos h1] at h
    rcases h1 with hs | hs <;>
      · unfold QueryBuilder._addCondition at h
        rw [hs] at h
        split_ifs at h <;> simp_all
  · rw [if_neg h1] at h
    by_cases h2 : v.isArray = true
    · rw [if_pos h2] at h
      have hobj : jsTypeof v = "object" := by
        cases v <;> simp_all [JSVal.isArray, jsTypeof]
      unfold QueryBuilder._addCondition at h
      rw [hobj] at h
      split_ifs at h <;> simp_all
    · rw [if_neg h2] at h
      simp at h
      exact h.symm

theorem isOneOf_msg (qb : QueryBuilder) (v : JSVal) (m : String)
    (h : (qb.isOneOf v).2 = some (.typeMismatch m)) :
    m = "Expected array type, found: " ++ jsTypeof v := by
  unfold QueryBuilder.isOneOf at h
  by_cases h1 : v.isArray = true
  · rw [if_pos h1] at h
    unfold QueryBuilder._addCondition at h
    split_ifs at h <;> simp_all [jsTypeof]
  · rw [if_neg h1] at h
    simp at h
    exact h.symm

theorem between_msg (qb : QueryBuilder) (a b : JSVal) (m : String)
    (h : (qb.between a b).2 = some (.typeMismatch m)) :
    m = "Expected string/date/number type, found: undefined" := by
  unfold QueryBuilder.between at h
  by_cases h1 : (jsTypeof a = "number" ∧ jsTypeof b = "number")
      ∨ (jsTypeof a = "string" ∧ jsTypeof b = "string")
  · rw [if_pos h1] at h
    unfold QueryBuilder._addCondition at h
    split_ifs at h <;> simp_all [jsTypeof]
  · rw [if_neg h1] at h
    by_cases h2 : (a.isDateLike && b.isDateLike) = true
    · rw [if_pos h2] at h
      unfold QueryBuilder._addCondition at h
      split_ifs at h <;> simp_all [jsTypeof]
    · rw [if_neg h2] at h
      simp at h
      exact h.symm

/-! ## The claims -/

/-- **C1.** `build()` fails with the EmptyQuery error exactly when zero
tokens have been appended — independent of any prior `field()` calls, which
touch only `currentField` — and otherwise returns the concatenation of all
appended tokens in append order with no separators beyond what each token
itself contains. -/
theorem C1_build_contract (qb : QueryBuilder) :
    (qb.query = [] →
      qb.build = .error (.emptyQuery "Atleast one condition is required in query."))
    ∧ (qb.query ≠ [] → qb.build = .ok (String.join qb.query))
    ∧ (∀ s, (qb.field s).build = qb.build) := by
  refine ⟨fun h => ?_, fun h => ?_, fun s => rfl⟩
  · simp [QueryBuilder.build, h]
  · simp [QueryBuilder.build, List.length_eq_zero, h]

/-- Witness for C1 at concrete builders. -/
theorem C1_build_contract_witness :
    QueryBuilder.init.build
        = .error (.emptyQuery "Atleast one condition is required in query.")
    ∧ (QueryBuilder.mk ["priority=1", "^", "state!=6"] "state").build
        = .ok "priority=1^state!=6" := by
  constructor
  · exact (C1_build_contract QueryBuilder.init).1 rfl
  · have h := (C1_build_contract (QueryBuilder.mk ["priority=1", "^", "state!=6"] "state")).2.1
      (by simp)
    rw [h]
    rfl

/-- **C2.** `equals`/`notEquals` dispatch on the runtime type of their single
argument: string or number operands append the direct tokens
`field=operand` / `field!=operand`; array operands append the comma-joined
membership tokens under `IN` / `NOT IN` with no brackets; any other operand
fails with a type error naming the actual `typeof` encountered. -/
theorem C2_equals_notEquals_dispatch (qb : QueryBuilder) (v : JSVal)
    (hf : qb.currentField ≠ "") :
    ((jsTypeof v = "string" ∨ jsTypeof v = "number") →
      qb.equals v
          = ({ qb with query := qb.query
                ++ [qb.currentField ++ "=" ++ jsToString v] }, none)
      ∧ qb.notEquals v
          = ({ qb with query := qb.query
                ++ [qb.currentField ++ "!=" ++ jsToString v] }, none))
    ∧ (∀ xs, v = .arr xs →
      qb.equals v
          = ({ qb with query := qb.query
                ++ [qb.currentField ++ "IN" ++ jsArrJoin xs] }, none)
      ∧ qb.notEquals v
          = ({ qb with query := qb.query
                ++ [qb.currentField ++ "NOT IN" ++ jsArrJoin xs] }, none))
    ∧ (¬(jsTypeof v = "string" ∨ jsTypeof v = "number") → v.isArray = false →
      qb.equals v
          = (qb, some (.typeMismatch ("Expected string or list type, found: " ++ jsTypeof v)))
      ∧ qb.notEquals v
          = (qb, some (.typeMismatch ("Expected string or list type, found: " ++ jsTypeof v)))) := by
  refine ⟨fun hs => ?_, fun xs hxs => ?_, fun hns harr => ?_⟩
  · have hc : (["string", "number"].contains (jsTypeof v)) = true := by
      rcases hs with h | h <;> simp [h]
    unfold QueryBuilder.equals QueryBuilder.notEquals
    rw [if_pos hs, if_pos hs]
    exact ⟨addCondition_ok _ _ _ _ hf hc, addCondition_ok _ _ _ _ hf hc⟩
  · subst hxs
    have hns : ¬(jsTypeof (JSVal.arr xs) = "string" ∨ jsTypeof (JSVal.arr xs) = "number") := by
      simp [jsTypeof]
    have hc : (["object"].contains (jsTypeof (JSVal.arr xs))) = true := by simp [jsTypeof]
    unfold QueryBuilder.equals QueryBuilder.notEquals
    rw [if_neg hns, if_neg hns,
      if_pos (show (JSVal.arr xs).isArray = true from rfl),
      if_pos (show (JSVal.arr xs).isArray = true from rfl)]
    exact ⟨addCondition_ok _ _ _ _ hf hc, addCondition_ok _ _ _ _ hf hc⟩
  · unfold QueryBuilder.equals QueryBuilder.notEquals
    rw [if_neg hns, if_neg hns]
    simp [harr]

/-- Witness for C2 at concrete inputs. -/
theorem C2_equals_notEquals_dispatch_witness :
    (QueryBuilder.mk [] "field").equals (.num 42)
        = (QueryBuilder.mk ["field=42"] "field", none)
    ∧ (QueryBuilder.mk [] "field").notEquals (.arr [.num 1, .num 2, .num 3])
        = (QueryBuilder.mk ["fieldNOT IN1,2,3"] "field", none)
    ∧ (QueryBuilder.mk [] "field").equals .objPlain
        = (QueryBuilder.mk [] "field",
           some (.typeMismatch "Expected string or list type, found: object")) := by
  refine ⟨?_, ?_, ?_⟩
  · exact (((C2_equals_notEquals_dispatch (QueryBuilder.mk [] "field") (.num 42)
      (by decide)).1 (Or.inr rfl)).1).trans (by decide)
  · exact (((C2_equals_notEquals_dispatch (QueryBuilder.mk [] "field")
      (.arr [.num 1, .num 2, .num 3]) (by decide)).2.1 [.num 1, .num 2, .num 3]
      rfl).2).trans (by decide)
  · exact (((C2_equals_notEquals_dispatch (QueryBuilder.mk [] "field") .objPlain
      (by decide)).2.2 (by decide) rfl).1).trans (by decide)

/-- **C3.** With a current field set, `between(start, end)` on a number pair
or a string pair appends the token `fieldBETWEENstart@end`; on a pair of
date-like values it appends the two `_getDateTimeInUTC` renderings joined by
`@` — in particular, for a pair of `Date` values these are the UTC calendar
components formatted with the source's pattern — and every mismatched or
unsupported pair of operand types fails with the TypeMismatch error. -/
theorem C3_between_contract (qb : QueryBuilder) (a b : JSVal)
    (hf : qb.currentField ≠ "") :
    ((jsTypeof a = "number" ∧ jsTypeof b = "number")
        ∨ (jsTypeof a = "string" ∧ jsTypeof b = "string") →
      qb.between a b = ({ qb with query := qb.query
          ++ [qb.currentField ++ "BETWEEN"
              ++ (jsToString a ++ "@" ++ jsToString b)] }, none))
    ∧ (a.isDateLike = true → b.isDateLike = true →
      qb.between a b = ({ qb with query := qb.query
          ++ [qb.currentField ++ "BETWEEN"
              ++ (_getDateTimeInUTC a ++ "@" ++ _getDateTimeInUTC b)] }, none))
    ∧ (∀ ta tb, qb.between (.date ta) (.date tb) = ({ qb with query := qb.query
          ++ [qb.currentField ++ "BETWEEN"
              ++ (fmtParts (utcParts ta) ++ "@" ++ fmtParts (utcParts tb))] }, none))
    ∧ (¬((jsTypeof a = "number" ∧ jsTypeof b = "number")
          ∨ (jsTypeof a = "string" ∧ jsTypeof b = "string")
          ∨ (a.isDateLike = true ∧ b.isDateLike = true)) →
      qb.between a b
        = (qb, some (.typeMismatch "Expected string/date/number type, found: undefined"))) := by
  have hdate : ∀ (x y : JSVal), x.isDateLike = true → y.isDateLike = true →
      qb.between x y = ({ qb with query := qb.query
          ++ [qb.currentField ++ "BETWEEN"
              ++ (_getDateTimeInUTC x ++ "@" ++ _getDateTimeInUTC y)] }, none) := by
    intro x y hx hy
    have hxo := jsTypeof_of_isDateLike x hx
    have hyo := jsTypeof_of_isDateLike y hy
    unfold QueryBuilder.between
    rw [if_neg (by simp [hxo, hyo]), if_pos (by simp [hx, hy])]
    exact addCondition_ok _ _ _ _ hf (by simp [jsTypeof])
  refine ⟨fun hs => ?_, hdate a b, fun ta tb => ?_, fun hn => ?_⟩
  · unfold QueryBuilder.between
    rw [if_pos hs]
    exact addCondition_ok _ _ _ _ hf (by simp [jsTypeof])
  · rw [hdate (.date ta) (.date tb) rfl rfl]
    simp [_getDateTimeInUTC, _formatDateTime]
  · unfold QueryBuilder.between
    rw [if_neg (fun hh => hn (hh.elim Or.inl (fun y => Or.inr (Or.inl y)))),
      if_neg (fun hh => hn (Or.inr (Or.inr (by rw [Bool.and_eq_true] at hh; exact hh))))]

/-- Witness for C3 at concrete inputs. -/
theorem C3_between_contract_witness :
    (QueryBuilder.mk [] "f").between (.num 1) (.num 5)
        = (QueryBuilder.mk ["fBETWEEN1@5"] "f", none)
    ∧ (QueryBuilder.mk [] "f").between (.num 1) (.str "x")
        = (QueryBuilder.mk [] "f",
           some (.typeMismatch "Expected string/date/number type, found: undefined"))
    ∧ (QueryBuilder.mk [] "f").between (.date 1592231445) (.date 1592231445)
        = (QueryBuilder.mk ["fBETWEEN2020-06-15 02:30:45@2020-06-15 02:30:45"] "f", none) := by
  refine ⟨?_, ?_, ?_⟩
  · exact ((C3_between_contract (QueryBuilder.mk [] "f") (.num 1) (.num 5)
      (by decide)).1 (Or.inl ⟨rfl, rfl⟩)).trans (by decide)
  · exact ((C3_between_contract (QueryBuilder.mk [] "f") (.num 1) (.str "x")
      (by decide)).2.2.2 (by decide)).trans (by decide)
  · exact ((C3_between_contract (QueryBuilder.mk [] "f") (.date 1592231445)
      (.date 1592231445) (by decide)).2.2.1 1592231445 1592231445).trans (by decide)

/-- **C4** (code bug): the datetime normalisation `_getDateTimeInUTC` does
not convert moment inputs to UTC, contradicting the source's own doc comment
("Converts date/moment object to UTC ...").  At the instant
2020-06-15 14:30:45 UTC, a `Date` input renders the UTC components
(`02:30:45` on moment's 12-hour `hh` clock), while a moment carrying the
same instant with a +30-minute UTC offset renders its own local components
`03:00:45` — so the two accepted input shapes denoting the same instant do
not produce the same formatted string. -/
theorem C4_moment_path_not_utc :
    _getDateTimeInUTC (JSVal.date 1592231445) = "2020-06-15 02:30:45"
    ∧ _getDateTimeInUTC (JSVal.momentObj 1592231445 30) = "2020-06-15 03:00:45"
    ∧ _getDateTimeInUTC (JSVal.momentObj 1592231445 30)
        ≠ _getDateTimeInUTC (JSVal.date 1592231445) := by
  exact ⟨by decide, by decide, by decide⟩

/-- **C5** (counterexample to the claim as stated): `equals` invoked on a
fresh builder — i.e. before any `field()` call — with a plain-object operand
fails with a `TypeMismatch`, not with the MissingField error: the operand
dispatch of `equals` throws before `_addCondition`'s missing-field check is
ever reached. -/
theorem C5_counterexample :
    applyOp QueryBuilder.init (.equalsOp .objPlain)
        = (QueryBuilder.init,
           some (.typeMismatch "Expected string or list type, found: object"))
    ∧ isMissingFieldO (applyOp QueryBuilder.init (.equalsOp .objPlain)).2 = false := by
  exact ⟨by decide, by decide⟩

/-- **C5** (amended): every condition method invoked before any `field()`
call fails and appends nothing; the error is MissingField whenever the
operands pass the method's own type dispatch, and TypeMismatch otherwise
(`equals`, `notEquals`, `isOneOf`, `between` and the comparison family throw
their dispatch type error even with no field selected). -/
theorem C5_missing_field (qb : QueryBuilder) (op : Op)
    (hcf : qb.currentField = "") (hc : isConditionOp op = true) :
    (dispatchOK op = true →
      applyOp qb op = (qb, some (.missingField "Conditions requires a field.")))
    ∧ (dispatchOK op = false →
      ∃ m, applyOp qb op = (qb, some (.typeMismatch m))) :=
  condNoField qb op hcf hc

/-- Witness for C5 on a fresh builder. -/
theorem C5_missing_field_witness :
    applyOp QueryBuilder.init .isEmptyOp
        = (QueryBuilder.init, some (.missingField "Conditions requires a field.")) :=
  (C5_missing_field QueryBuilder.init .isEmptyOp rfl rfl).1 rfl

/-- **C6** (counterexample to the claim as stated): with a field selected,
`startsWith(42)` raises a TypeMismatch whose message is exactly
`"Invalid type passed. Expected: string"`: the message does not contain the
operand's actual type `"number"` — indeed an operand of a different actual
type (`true`, a boolean) yields the identical message, so the message cannot
state the actual type observed. -/
theorem C6_counterexample :
    (QueryBuilder.mk [] "f").startsWith (.num 42)
        = (QueryBuilder.mk [] "f",
           some (.typeMismatch "Invalid type passed. Expected: string"))
    ∧ occursIn (jsTypeof (.num 42)) "Invalid type passed. Expected: string" = false
    ∧ (QueryBuilder.mk [] "f").startsWith (.boolV true)
        = (QueryBuilder.mk [] "f").startsWith (.num 42) := by
  exact ⟨by decide, by decide, by decide⟩

/-- **C6** (amended): every TypeMismatch raised by a condition method
carries the method-determined message `typeFailMsg`: the dispatch checks of
`equals`, `notEquals`, `isOneOf` and the comparison family do state the
expected types and the actual operand type, but the shared `_addCondition`
check states only the expected type set (omitting the actual type), and
`between` always reports `undefined` as the found type. -/
theorem C6_type_error_messages (qb : QueryBuilder) (op : Op) (m : String)
    (h : (applyOp qb op).2 = some (.typeMismatch m)) : m = typeFailMsg op := by
  cases op with
  | fieldOp s => simp [applyOp] at h
  | orderAscendingOp => simp [applyOp] at h
  | orderDescendingOp => simp [applyOp] at h
  | andOp => simp [applyOp] at h
  | orOp => simp [applyOp] at h
  | nqOp => simp [applyOp] at h
  | startsWithOp v =>
      rw [addCondition_msg _ _ _ _ _ h]
      rfl
  | endsWithOp v =>
      rw [addCondition_msg _ _ _ _ _ h]
      rfl
  | containsOp v =>
      rw [addCondition_msg _ _ _ _ _ h]
      rfl
  | doesNotContainOp v =>
      rw [addCondition_msg _ _ _ _ _ h]
      rfl
  | isEmptyOp =>
      rw [addCondition_msg _ _ _ _ _ h]
      rfl
  | isNotEmptyOp =>
      rw [addCondition_msg _ _ _ _ _ h]
      rfl
  | isAnythingOp =>
      rw [addCondition_msg _ _ _ _ _ h]
      rfl
  | isEmptyStringOp =>
      rw [addCondition_msg _ _ _ _ _ h]
      rfl
  | equalsOp v => exact equals_msg _ _ _ h
  | notEqualsOp v => exact notEquals_msg _ _ _ h
  | isOneOfOp v => exact isOneOf_msg _ _ _ h
  | greaterThanOp v => exact cmp_msg _ _ _ _ h
  | greaterThanOrIsOp v => exact cmp_msg _ _ _ _ h
  | lessThanOp v => exact cmp_msg _ _ _ _ h
  | lessThanOrIsOp v => exact cmp_msg _ _ _ _ h
  | betweenOp a b => exact between_msg _ _ _ _ h

/-- Witness for C6 at a concrete mismatching call. -/
theorem C6_type_error_messages_witness :
    (applyOp (QueryBuilder.mk [] "f") (.startsWithOp (.num 42))).2
        = some (.typeMismatch "Invalid type passed. Expected: string")
    ∧ "Invalid type passed. Expected: string" = typeFailMsg (.startsWithOp (.num 42)) :=
  ⟨by decide,
   C6_type_error_messages (QueryBuilder.mk [] "f") (.startsWithOp (.num 42)) _ (by decide)⟩

/-- **C7.** Every error is raised at the point of violation with no partial
mutation: an operation that throws appends no token and returns the builder
state unchanged (and `build`, embedded as a read-only function because its
source body contains no assignment, never mutates state even when it throws
EmptyQuery). -/
theorem C7_no_partial_mutation (qb : QueryBuilder) (op : Op) (e : QueryError)
    (h : (applyOp qb op).2 = some e) : (applyOp qb op).1 = qb :=
  applyOp_error_state qb op e h

/-- Witness for C7 at a concrete failing call. -/
theorem C7_no_partial_mutation_witness :
    (applyOp QueryBuilder.init .isAnythingOp).2
        = some (.missingField "Conditions requires a field.")
    ∧ (applyOp QueryBuilder.init .isAnythingOp).1 = QueryBuilder.init :=
  ⟨by decide,
   C7_no_partial_mutation QueryBuilder.init .isAnythingOp
     (QueryError.missingField "Conditions requires a field.") (by decide)⟩

/-- **C8.** The token sequence grows monotonically: after every builder
operation the previous token list is an initial segment of the new one
(tokens are only appended, never reordered or removed), and `build` —
embedded as a read-only function of the state, since its source body contains
no assignment — is deterministic, so two consecutive `build` calls return
the identical string. -/
theorem C8_monotonic_growth (qb : QueryBuilder) (op : Op) :
    (∃ ext, (applyOp qb op).1.query = qb.query ++ ext)
    ∧ (∀ s t, qb.build = .ok s → qb.build = .ok t → s = t) := by
  refine ⟨applyOp_growth qb op, fun s t hs ht => ?_⟩
  rw [hs] at ht
  injection ht

/-- Witness for C8 at a concrete builder and operation. -/
theorem C8_monotonic_growth_witness :
    (∃ ext, (applyOp (QueryBuilder.mk ["a"] "f") .andOp).1.query = ["a"] ++ ext)
    ∧ ("a" : String) = "a" :=
  ⟨(C8_monotonic_growth (QueryBuilder.mk ["a"] "f") .andOp).1,
   (C8_monotonic_growth (QueryBuilder.mk ["a"] "f") .andOp).2 "a" "a" rfl rfl⟩

/-- **C9** (counterexample to the claim as stated): after `field("")` the
type-dispatching condition methods still fail with TypeMismatch — not
MissingField — on operands that fail their dispatch: `notEquals({})` after
`field("")` raises the type error. -/
theorem C9_counterexample :
    applyOp (QueryBuilder.init.field "") (.notEqualsOp .objPlain)
        = (QueryBuilder.init.field "",
           some (.typeMismatch "Expected string or list type, found: object"))
    ∧ isMissingFieldO (applyOp (QueryBuilder.init.field "") (.notEqualsOp .objPlain)).2
        = false := by
  exact ⟨by decide, by decide⟩

/-- **C9** (amended): `field("")` does not satisfy the field-set
precondition, because the missing-field check tests the truthiness of the
current-field string and not whether `field()` was ever called: after
`field("")` — exactly as at construction — every condition method fails and
appends nothing, with MissingField whenever its operands pass the method's
own type dispatch (and TypeMismatch otherwise). -/
theorem C9_empty_field_name (qb : QueryBuilder) (op : Op)
    (hc : isConditionOp op = true) :
    (qb.field "").currentField = ""
    ∧ (dispatchOK op = true →
        applyOp (qb.field "") op
          = (qb.field "", some (.missingField "Conditions requires a field.")))
    ∧ (dispatchOK op = false →
        ∃ m, applyOp (qb.field "") op = (qb.field "", some (.typeMismatch m))) :=
  ⟨rfl, (condNoField (qb.field "") op rfl hc).1, (condNoField (qb.field "") op rfl hc).2⟩

/-- Witness for C9 after a genuine `field` call overwritten by `field("")`. -/
theorem C9_empty_field_name_witness :
    applyOp ((QueryBuilder.init.field "name").field "") .isNotEmptyOp
        = ((QueryBuilder.init.field "name").field "",
           some (.missingField "Conditions requires a field.")) :=
  (C9_empty_field_name (QueryBuilder.init.field "name") .isNotEmptyOp rfl).2.1 rfl

theorem addCondition_emptyStr (qb : QueryBuilder) (o : String) (ts : List String)
    (hts : ts.contains "string" = true) :
    isTypeMismatchO (qb._addCondition o (.str "") ts).2 = false
    ∧ ((qb._addCondition o (.str "") ts).2 = none
       ∨ (qb._addCondition o (.str "") ts).2
           = some (.missingField "Conditions requires a field.")) := by
  unfold QueryBuilder._addCondition
  rw [show jsTypeof (JSVal.str "") = "string" from rfl, hts]
  simp only [show ((true : Bool) = false) = False from by simp, if_false]
  split_ifs with hf
  · exact ⟨rfl, Or.inr rfl⟩
  · exact ⟨rfl, Or.inl rfl⟩

/-- **C10.** The zero-argument condition methods `isEmpty`, `isNotEmpty`,
`isAnything` and `isEmptyString` never raise a TypeMismatch: their operand is
the fixed empty string, whose type `"string"` is in each method's
allowed-type set, so the type-validation branch is unreachable and the only
possible failure is MissingField. -/
theorem C10_zero_arg_no_type_error (qb : QueryBuilder) :
    (isTypeMismatchO (qb.isEmpty).2 = false
      ∧ ((qb.isEmpty).2 = none
        ∨ (qb.isEmpty).2 = some (.missingField "Conditions requires a field.")))
    ∧ (isTypeMismatchO (qb.isNotEmpty).2 = false
      ∧ ((qb.isNotEmpty).2 = none
        ∨ (qb.isNotEmpty).2 = some (.missingField "Conditions requires a field.")))
    ∧ (isTypeMismatchO (qb.isAnything).2 = false
      ∧ ((qb.isAnything).2 = none
        ∨ (qb.isAnything).2 = some (.missingField "Conditions requires a field.")))
    ∧ (isTypeMismatchO (qb.isEmptyString).2 = false
      ∧ ((qb.isEmptyString).2 = none
        ∨ (qb.isEmptyString).2 = some (.missingField "Conditions requires a field."))) :=
  ⟨addCondition_emptyStr qb "ISEMPTY" ["string", "number"] (by decide),
   addCondition_emptyStr qb "ISNOTEMPTY" ["string", "number"] (by decide),
   addCondition_emptyStr qb "ANYTHING" ["string", "number"] (by decide),
   addCondition_emptyStr qb "EMPTYSTRING" ["string"] (by decide)⟩
